import Mathlib

/-
Verification of the archive cross-match / light-curve ingestion handlers in
src/extensions/skyportal/skyportal/handlers/api/archive.py.

Numbers are modelled by exact rationals (ℚ); Python `float` narrowing
(np.float32 / np.float64) is treated as value-preserving at this level.
Remote services (Kowalski "Gloria", the SQL store, token issuance) are
collaborators: their behaviour enters through explicit environment records,
and the calls the handlers issue to them are recorded in an effect trace.
-/

/-- Python exceptions that the translated code can raise. -/
inductive PyExc where
  | keyError (k : String)
  | valueError (m : String)
  | typeError (m : String)
  | indexError (m : String)
deriving DecidableEq

/-- Result of a fallible piece of Python code: a value, or a raised exception. -/
inductive PyRes (α : Type) where
  | ok (a : α)
  | exc (e : PyExc)
deriving DecidableEq

/-- Decidable check that a character is an ASCII decimal digit. -/
def isDigitCh (c : Char) : Bool := decide ('0' ≤ c) && decide (c ≤ '9')

/-- ASCII lower-casing of one character (stream and catalog names are ASCII,
so this models Python `str.lower` on the names that occur). -/
def asciiLower (c : Char) : Char :=
  if 'A' ≤ c ∧ c ≤ 'Z' then Char.ofNat (c.toNat + 32) else c

/-- Lower-case a string character-wise, modelling `str.lower`. -/
def lowerStr (s : String) : String := String.mk (s.data.map asciiLower)

/-- Substring test on character lists, modelling Python `pat in s`. -/
def hasSubstr (pat : List Char) : List Char → Bool
  | [] => pat.isEmpty
  | c :: rest => pat.isPrefixOf (c :: rest) || hasSubstr pat rest

/-- Substring test on strings, modelling Python `pat in s`. -/
def containsSub (pat s : String) : Bool := hasSubstr pat.data s.data

/-- The stream-name test `"ztf" in stream.name.lower()` from the handlers. -/
def containsZtf (name : String) : Bool := containsSub "ztf" (lowerStr name)

/-- Python `s.startswith(pre)`. -/
def startsWithStr (pre s : String) : Bool := pre.data.isPrefixOf s.data

/-- Numpy `np.sign` on an exact rational. -/
def qsign (q : ℚ) : ℚ := if q < 0 then -1 else if 0 < q then 1 else 0

/-- Round to the nearest integer with ties to even, the rounding used by
Python float formatting (`{:.2f}` etc.). -/
def roundHalfEven (q : ℚ) : ℤ :=
  let f := ⌊q⌋
  let r := q - f
  if r < 1 / 2 then f
  else if 1 / 2 < r then f + 1
  else if 2 ∣ f then f else f + 1

/-- Two zero-padded decimal digits of a natural number below 100. -/
def pad2 (n : ℕ) : List Char := [Nat.digitChar (n / 10), Nat.digitChar (n % 10)]

/-- Python `f"{q:02.0f}"` for the nonnegative integer-valued rationals the
name synthesis feeds to it (two zero-padded digits). -/
def fmt02Of (q : ℚ) : List Char := pad2 (roundHalfEven q).toNat

/-- Python `f"{q:05.2f}"` for 0 ≤ q < 100: two zero-padded integer digits,
a point, and two fractional digits. -/
def fmt052Of (q : ℚ) : List Char :=
  let n := (roundHalfEven (q * 100)).toNat
  pad2 (n / 100) ++ ['.'] ++ pad2 (n % 100)

/-- Python `f"{q:04.1f}"` for 0 ≤ q < 100: two zero-padded integer digits,
a point, and one fractional digit. -/
def fmt041Of (q : ℚ) : List Char :=
  let n := (roundHalfEven (q * 10)).toNat
  pad2 (n / 10) ++ ['.'] ++ [Nat.digitChar (n % 10)]

/-- Translation of `radec_to_iau_name` (archive.py lines 43-61).  The sign
character of the Dec field reproduces the float sign of
`np.floor(abs(dec)) * np.sign(dec)` under `f"{:+03.0f}"`: negative (also as
the float -0.0 arising for -1 < dec < 0) prints "-", otherwise "+"; hence
the sign is '-' exactly when dec < 0. -/
def radec_to_iau_name (ra dec : ℚ) (pre : String) : PyRes String :=
  if ¬(0 ≤ ra ∧ ra < 360) then .exc (.valueError "Bad RA value in degrees")
  else if ¬(-90 ≤ dec ∧ dec ≤ 90) then .exc (.valueError "Bad Dec value in degrees")
  else
    let ra_h : ℚ := ⌊ra * 12 / 180⌋
    let ra_m : ℚ := ⌊(ra * 12 / 180 - ra_h) * 60⌋
    let ra_s : ℚ := ((ra * 12 / 180 - ra_h) * 60 - ra_m) * 60
    let dec_d : ℚ := ⌊|dec|⌋ * qsign dec
    let dec_m : ℚ := ⌊|dec - dec_d| * 60⌋
    let dec_s : ℚ := |(|dec - dec_d| * 60) - dec_m| * 60
    let hms := fmt02Of ra_h ++ fmt02Of ra_m ++ fmt052Of ra_s
    let signCh : Char := if dec < 0 then '-' else '+'
    let dms := [signCh] ++ fmt02Of |dec_d| ++ fmt02Of dec_m ++ fmt041Of dec_s
    .ok (pre ++ String.mk (hms ++ dms))

/-- Checker for the de-facto suffix format of the synthesized names:
six digits, a point, two digits, a sign, six digits, a point, one digit
(regular expression \d{6}\.\d{2}[+-]\d{6}\.\d{1}). -/
def iauSuffixOk : List Char → Bool
  | [a1, a2, a3, a4, a5, a6, p1, b1, b2, sg, c1, c2, c3, c4, c5, c6, p2, e1] =>
    isDigitCh a1 && isDigitCh a2 && isDigitCh a3 && isDigitCh a4 && isDigitCh a5 &&
    isDigitCh a6 && (p1 == '.') && isDigitCh b1 && isDigitCh b2 &&
    (sg == '+' || sg == '-') && isDigitCh c1 && isDigitCh c2 && isDigitCh c3 &&
    isDigitCh c4 && isDigitCh c5 && isDigitCh c6 && (p2 == '.') && isDigitCh e1
  | _ => false

/-- Checker for the suffix format the specification claims
(regular expression \d{6}\.\d{2}[+-]\d{5}\.\d{1}: only five digits between
the sign and the final point). -/
def iauSuffixClaimedOk : List Char → Bool
  | [a1, a2, a3, a4, a5, a6, p1, b1, b2, sg, c1, c2, c3, c4, c5, p2, e1] =>
    isDigitCh a1 && isDigitCh a2 && isDigitCh a3 && isDigitCh a4 && isDigitCh a5 &&
    isDigitCh a6 && (p1 == '.') && isDigitCh b1 && isDigitCh b2 &&
    (sg == '+' || sg == '-') && isDigitCh c1 && isDigitCh c2 && isDigitCh c3 &&
    isDigitCh c4 && isDigitCh c5 && (p2 == '.') && isDigitCh e1
  | _ => false

/-- One epoch of a raw ZTF light curve: an element of the `data` array that
the Kowalski aggregation stage returns (fields the handler code touches). -/
structure Epoch where
  hjd : ℚ
  mag : ℚ
  magerr : ℚ
  catflags : ℤ
  programid : ℤ
  ra : ℚ
  dec : ℚ
deriving DecidableEq

/-- One raw light-curve record as projected by the aggregation pipeline:
top-level id, position (possibly absent), filter code and the epoch array. -/
structure LightCurve where
  id : ℤ
  ra : Option ℚ
  dec : Option ℚ
  filter : ℤ
  data : List Epoch
deriving DecidableEq

/-- One row of the canonical photometry table produced by `make_photometry`. -/
structure PhotRow where
  mjd : ℚ
  mag : ℚ
  magerr : ℚ
  zp : ℚ
  magsys : String
  filterName : String
  catflags : ℤ
  programid : ℤ
  ra : ℚ
  dec : ℚ
deriving DecidableEq

/-- Sequential fallible map: models applying a Python function column-wise
with the first raised exception aborting the whole operation. -/
def mapExcept (g : α → PyRes β) : List α → PyRes (List β)
  | [] => .ok []
  | a :: as =>
    match g a with
    | .exc e => .exc e
    | .ok b =>
      match mapExcept g as with
      | .exc e => .exc e
      | .ok bs => .ok (b :: bs)

/-- The fixed filter-code table `ztf_filters = {1: "ztfg", 2: "ztfr", 3: "ztfi"}`. -/
def ztf_filters (fid : ℤ) : Option String :=
  if fid = 1 then some "ztfg"
  else if fid = 2 then some "ztfr"
  else if fid = 3 then some "ztfi"
  else none

/-- Per-record data frames: for every light curve with a nonempty `data`
array, its epochs tagged with the parent record's filter code
(archive.py lines 72-77). -/
def taggedFrames (lcs : List LightCurve) : List (List (Epoch × ℤ)) :=
  lcs.filterMap fun lc =>
    if lc.data.length ≠ 0 then some (lc.data.map fun e => (e, lc.filter)) else none

/-- The per-row column assignments of `make_photometry`: filter name from the
fixed table (a missing entry is the `KeyError` the dict lookup raises),
constant magnitude system and zero point, and mjd = hjd - 2400000.5. -/
def photRowOf (p : Epoch × ℤ) : PyRes PhotRow :=
  match ztf_filters p.2 with
  | none => .exc (.keyError (toString p.2))
  | some fname =>
    .ok { mjd := p.1.hjd - 2400000.5
          mag := p.1.mag
          magerr := p.1.magerr
          zp := 23.9
          magsys := "ab"
          filterName := fname
          catflags := p.1.catflags
          programid := p.1.programid
          ra := p.1.ra
          dec := p.1.dec }

/-- Translation of `make_photometry` (archive.py lines 64-96).  An empty
list of data frames makes `pd.concat` raise
`ValueError("No objects to concatenate")`; otherwise the frames are
concatenated in order, every row gets its canonical columns, and with
`drop_flagged` only rows with catflags == 0 are retained. -/
def make_photometry (lcs : List LightCurve) (drop_flagged : Bool) : PyRes (List PhotRow) :=
  let dfs := taggedFrames lcs
  if dfs.length = 0 then .exc (.valueError "No objects to concatenate")
  else
    match mapExcept photRowOf dfs.flatten with
    | .exc e => .exc e
    | .ok rows => .ok (if drop_flagged then rows.filter (fun r => r.catflags = 0) else rows)

/-- Specification-side normal form for C4: flatten the records in order,
keep exactly the epochs with catflags = 0, and build each output row by the
declared formulas (mjd = hjd - 2400000.5, fixed filter table). -/
def normalizeSpecRow (p : Epoch × ℤ) : PhotRow :=
  { mjd := p.1.hjd - 2400000.5
    mag := p.1.mag
    magerr := p.1.magerr
    zp := 23.9
    magsys := "ab"
    filterName := if p.2 = 1 then "ztfg" else if p.2 = 2 then "ztfr" else "ztfi"
    catflags := p.1.catflags
    programid := p.1.programid
    ra := p.1.ra
    dec := p.1.dec }

/-- Specification-side description of `make_photometry` with flag dropping:
record-concatenation order across records, per-epoch order within records,
no deduplication. -/
def normalizeSpec (lcs : List LightCurve) : List PhotRow :=
  (((lcs.map fun lc => lc.data.map fun e => (e, lc.filter)).flatten).filter
    (fun p => p.1.catflags = 0)).map normalizeSpecRow

/-- One SkyPortal stream row: its id, name, and the `altdata["selector"]`
program-id list (empty when absent, matching `altdata.get("selector", [])`). -/
structure StreamRec where
  id : ℕ
  name : String
  selector : List ℤ
deriving DecidableEq

/-- A caller's accessible program ids (archive.py lines 606-614 and 803-809):
the set {1} of public data, extended by the `selector` of every user stream
whose name contains "ztf" case-insensitively. -/
def accessiblePrograms (streams : List StreamRec) : Finset ℤ :=
  streams.foldl (fun acc s => if containsZtf s.name then acc ∪ s.selector.toFinset else acc) {1}

/-- Point update of a dict modelled as a partial map. -/
def updMap (m : ℤ → Option ℕ) (k : ℤ) (v : ℕ) : ℤ → Option ℕ :=
  fun p => if p = k then some v else m p

/-- One iteration of the stream loop of `ArchiveHandler.post`
(archive.py lines 940-948): three independent exact-name tests, with the
"ZTF Public+Partnership+Caltech" stream entered under both program id 0
(engineering data) and program id 3. -/
def updStream (m : ℤ → Option ℕ) (s : StreamRec) : ℤ → Option ℕ :=
  let m1 := if s.name = "ZTF Public" then updMap m 1 s.id else m
  let m2 := if s.name = "ZTF Public+Partnership" then updMap m1 2 s.id else m1
  if s.name = "ZTF Public+Partnership+Caltech" then updMap (updMap m2 0 s.id) 3 s.id else m2

/-- The `ztf_program_id_to_stream_id` dict built from the stream table. -/
def ztfProgramIdToStreamId (streams : List StreamRec) : ℤ → Option ℕ :=
  streams.foldl updStream (fun _ => none)

/-- The `df_photometry["programid"].apply(lambda x: map[x])` step
(archive.py lines 949-951): an unmapped program id raises the dict `KeyError`. -/
def applyStreamIds (m : ℤ → Option ℕ) (rows : List PhotRow) : PyRes (List ℕ) :=
  mapExcept (fun r =>
    match m r.programid with
    | none => PyRes.exc (.keyError (toString r.programid))
    | some sid => PyRes.ok sid) rows

/-- Python truthiness of an optional query-argument string: absent and empty
strings are falsy. -/
def truthyOpt : Option String → Bool
  | none => false
  | some s => !s.data.isEmpty

/-- Value of a digit string, most significant first. -/
def natValOf (l : List Char) : ℕ := l.foldl (fun n c => n * 10 + (c.toNat - 48)) 0

/-- Python `float()` on the plain decimal literals that occur as position
arguments: optional sign, integer digits, optional point and fraction digits
(at least one digit overall); anything else raises `ValueError`. -/
def parseFloat (s : String) : Option ℚ :=
  let core : List Char → Option ℚ := fun l =>
    let ip := l.takeWhile isDigitCh
    let rest := l.dropWhile isDigitCh
    match rest with
    | [] => if ip.isEmpty then none else some (natValOf ip)
    | '.' :: fp =>
      if fp.all isDigitCh && !(ip.isEmpty && fp.isEmpty) then
        some ((natValOf ip : ℚ) + (natValOf fp : ℚ) / (10 ^ fp.length : ℕ))
      else none
    | _ => none
  match s.data with
  | '-' :: rest => (core rest).map (fun q => -q)
  | '+' :: rest => core rest
  | l => core l

/-- Outcome of the shared position-argument block of the GET handlers. -/
inductive PosOut where
  | errorMsg (msg : String)
  | complete (ra dec radius : ℚ) (units : String)
  | skip
deriving DecidableEq

/-- The position-argument block shared verbatim by `CrossMatchHandler.get`
(lines 205-249, with RA/Dec range checks) and `ArchiveHandler.get`
(lines 621-657, without them): the incomplete branch fires when the
four-tuple is not all truthy but some member is, and returns an error only
when some member is `None`; a complete tuple is checked for unit validity,
float parsing (ValueError caught) and the radius cap; any other combination
falls through with no response. -/
def positionStepQ (checkRange : Bool) (ra dec radius radius_units : Option String) : PosOut :=
  let t := [ra, dec, radius, radius_units]
  if ¬ t.all truthyOpt ∧ t.any truthyOpt ∧
      (ra = none ∨ dec = none ∨ radius = none ∨ radius_units = none) then
    if ra = none then .errorMsg "Missing required parameter: ra"
    else if dec = none then .errorMsg "Missing required parameter: dec"
    else if radius = none then .errorMsg "Missing required parameter: radius"
    else .errorMsg "Missing required parameter: radius_units"
  else if t.all truthyOpt then
    let us := radius_units.getD ""
    if us ∉ ["deg", "arcmin", "arcsec"] then
      .errorMsg "Invalid radius_units value. Must be one of either 'deg', 'arcmin', or 'arcsec'."
    else
      match parseFloat (ra.getD ""), parseFloat (dec.getD ""), parseFloat (radius.getD "") with
      | some raF, some decF, some radF =>
        if checkRange ∧ ¬(0 ≤ raF ∧ raF < 360) then
          .errorMsg "Invalid R.A. value provided: must be 0 <= R.A. [deg] < 360"
        else if checkRange ∧ ¬(-90 ≤ decF ∧ decF ≤ 90) then
          .errorMsg "Invalid Decl. value provided: must be -90 <= Decl. [deg] <= 90"
        else if (us = "deg" ∧ radF > 1) ∨ (us = "arcmin" ∧ radF > 60) ∨
            (us = "arcsec" ∧ radF > 3600) then
          .errorMsg "Radius must be <= 1.0 deg"
        else .complete raF decF radF us
      | _, _, _ => .errorMsg "Invalid (non-float) value provided."
  else .skip

/-- JSON values occurring in a request body (the shapes the handlers touch). -/
inductive JVal where
  | jnull
  | jnum (q : ℚ)
  | jstr (s : String)
deriving DecidableEq

/-- Python truthiness of a JSON value. -/
def jTruthy : JVal → Bool
  | .jnull => false
  | .jnum q => decide (q ≠ 0)
  | .jstr s => !s.data.isEmpty

/-- Python `v is None` for a JSON value. -/
def jIsNone : JVal → Bool
  | .jnull => true
  | _ => false

/-- Python `float(v)` on a JSON value: numbers pass through, strings are
parsed (failure raises ValueError), `None` raises TypeError. -/
def jToFloat : JVal → PyRes ℚ
  | .jnum q => .ok q
  | .jstr s =>
    match parseFloat s with
    | some q => .ok q
    | none => .exc (.valueError ("could not convert string to float: " ++ s))
  | .jnull => .exc (.typeError "float() argument must be a string or a real number, not NoneType")

/-- Outcome of the position-argument block of `ScopeFeaturesHandler.post`,
whose arguments are JSON values rather than query strings. -/
inductive PosOutJ where
  | errorMsg (msg : String)
  | complete (ra dec radius : ℚ) (units : String)
  | skip
  | raised (e : PyExc)
deriving DecidableEq

/-- Membership of a JSON value in a list of strings (Python `v in [strs]`). -/
def jInStrings (v : JVal) (l : List String) : Bool :=
  match v with
  | .jstr s => decide (s ∈ l)
  | _ => false

/-- Python `v == "s"` for a JSON value. -/
def jEqStr (v : JVal) (s : String) : Bool :=
  match v with
  | .jstr u => decide (u = s)
  | _ => false

/-- The position-argument block of `ScopeFeaturesHandler.post`
(archive.py lines 373-404): the same structure as the GET handlers but over
JSON values, without RA/Dec range checks; only `ValueError` from the float
conversions is caught (a `None` would raise an uncaught TypeError, though
`None` members never reach the conversion since they are not truthy). -/
def positionStepJ (ra dec radius radius_units : JVal) : PosOutJ :=
  let t := [ra, dec, radius, radius_units]
  if ¬ t.all jTruthy ∧ t.any jTruthy ∧
      (jIsNone ra ∨ jIsNone dec ∨ jIsNone radius ∨ jIsNone radius_units) then
    if jIsNone ra then .errorMsg "Missing required parameter: ra"
    else if jIsNone dec then .errorMsg "Missing required parameter: dec"
    else if jIsNone radius then .errorMsg "Missing required parameter: radius"
    else .errorMsg "Missing required parameter: radius_units"
  else if t.all jTruthy then
    if ¬ jInStrings radius_units ["deg", "arcmin", "arcsec"] then
      .errorMsg "Invalid radius_units value. Must be one of either 'deg', 'arcmin', or 'arcsec'."
    else
      match jToFloat ra, jToFloat dec, jToFloat radius with
      | .ok raF, .ok decF, .ok radF =>
        if (jEqStr radius_units "deg" ∧ radF > 1) ∨
            (jEqStr radius_units "arcmin" ∧ radF > 60) ∨
            (jEqStr radius_units "arcsec" ∧ radF > 3600) then
          .errorMsg "Radius must be <= 1.0 deg"
        else .complete raF decF radF (match radius_units with | .jstr u => u | _ => "")
      | .exc (.valueError _), _, _ => .errorMsg "Invalid (non-float) value provided."
      | .ok _, .exc (.valueError _), _ => .errorMsg "Invalid (non-float) value provided."
      | .ok _, .ok _, .exc (.valueError _) => .errorMsg "Invalid (non-float) value provided."
      | .exc e, _, _ => .raised e
      | .ok _, .exc e, _ => .raised e
      | .ok _, .ok _, .exc e => .raised e
  else .skip

/-- A feature value from the SCoPe feature catalog: null or numeric. -/
inductive FVal where
  | fnull
  | fnum (q : ℚ)
deriving DecidableEq

/-- An annotation-data value: Python `int(value)` is applied to a fixed
subset of keys, the rest stay as they are. -/
inductive AVal where
  | aint (z : ℤ)
  | anum (q : ℚ)
deriving DecidableEq

/-- Python `int()` truncation toward zero on a rational. -/
def truncQ (q : ℚ) : ℤ := if q < 0 then -⌊-q⌋ else ⌊q⌋

/-- The keys whose feature values are coerced to integers
(archive.py line 504). -/
def intCoerceKeys : List String := ["_id", "field", "ccd", "quad", "n"]

/-- The annotation-data construction (archive.py lines 500-506): null-valued
features are omitted, the fixed integer keys are coerced. -/
def buildAnnotationData (fs : List (String × FVal)) : List (String × AVal) :=
  fs.filterMap fun p =>
    match p.2 with
    | .fnull => none
    | .fnum q =>
      some (p.1, if p.1 ∈ intCoerceKeys then AVal.aint (truncQ q) else AVal.anum q)

/-- The identity of an annotation under the store's uniqueness constraint:
(object id, origin = catalog name, author). -/
structure AnnKey where
  obj_id : JVal
  origin : String
  author : String
deriving DecidableEq

/-- Modelled from the spec: the persistent store's commit with its uniqueness
constraint on (object id, origin, author) — the store itself is a
collaborator outside this repository.  Committing an annotation whose key is
already present raises `IntegrityError` and persists nothing; otherwise the
rows are appended. -/
def commitAnnotations (db : List AnnKey) (anns : List AnnKey) : Option (List AnnKey) :=
  if anns.any (fun a => decide (a ∈ db)) then none else some (db ++ anns)

/-- A raw cross-match source as returned inside `radec_geojson`. -/
structure RawSrc where
  id : ℤ
  lon : ℚ
  lat : ℚ
deriving DecidableEq

/-- A cross-match source after the handler's normalization: stringified id,
RA reconstructed as longitude + 180, Dec passed through. -/
structure OutSrc where
  id : String
  ra : ℚ
  dec : ℚ
deriving DecidableEq

/-- Success payloads the handlers can return. -/
inductive Payload where
  | unit
  | emptyList
  | lightCurves (lcs : List LightCurve)
  | xmatch (data : List (String × List OutSrc))
  | objId (id : String)
deriving DecidableEq

/-- A handler's observable outcome: a success or error response, an
uncaught exception, or no response at all (the handler body fell through
every return). -/
inductive Resp where
  | success (p : Payload)
  | error (msg : String)
  | raised (e : PyExc)
  | noResponse
deriving DecidableEq

/-- Remote and collaborator calls a handler issues, in order. -/
inductive Eff where
  | info
  | nearQ (catalogs : List String)
  | findQ (catalog : String)
  | aggregate (selector : Finset ℤ) (ids : List ℤ)
  | createToken
  | deleteToken
  | postSource
  | addPhot (rows : ℕ)
deriving DecidableEq

/-- The annotation insert-and-commit step (archive.py lines 522-527): an
`IntegrityError` from the uniqueness constraint is caught and reported as
"Annotation already posted."; on success the handler replies success. -/
def annotationInsertStep (db : List AnnKey) (ann : AnnKey) : List AnnKey × Resp :=
  match commitAnnotations db [ann] with
  | none => (db, .error "Annotation already posted.")
  | some db2 => (db2, .success .unit)

/-- Environment of one `CrossMatchHandler.get` request: the caller's
arguments and the remote service's behaviour. -/
structure XEnv where
  gloriaUp : Bool
  catalogNames : List String
  ra : Option String
  dec : Option String
  radius : Option String
  radius_units : Option String
  nearOk : Bool
  nearMessage : String
  nearData : List (String × List RawSrc)
deriving DecidableEq

/-- The catalog filter of `CrossMatchHandler.get` (lines 193-200): all but
the ZTF/PTF/PGIR/WNTR-prefixed catalogs. -/
def crossMatchCatalogs (names : List String) : List String :=
  names.filter fun c =>
    !startsWithStr "ZTF" c && !startsWithStr "PTF" c &&
    !startsWithStr "PGIR" c && !startsWithStr "WNTR" c

/-- Translation of `CrossMatchHandler.get` (archive.py lines 135-291),
returning the response and the ordered remote calls made. -/
def crossMatchGet (env : XEnv) : Resp × List Eff :=
  if ¬ env.gloriaUp then (.error "Gloria connection unavailable.", [])
  else
    let catalogs := crossMatchCatalogs env.catalogNames
    if catalogs.length = 0 then
      (.error "No catalogs available to run cross-match against.", [.info])
    else
      match positionStepQ true env.ra env.dec env.radius env.radius_units with
      | .errorMsg m => (.error m, [.info])
      | .skip => (.noResponse, [.info])
      | .complete _ _ _ _ =>
        let effs := [Eff.info, Eff.nearQ catalogs]
        if env.nearOk then
          let data := env.nearData.map fun p =>
            (p.1, p.2.map fun s => OutSrc.mk (toString s.id) (s.lon + 180) s.lat)
          (.success (.xmatch data), effs)
        else (.error env.nearMessage, effs)

/-- Environment of one `ArchiveHandler.get` request. -/
structure GetEnv where
  gloriaUp : Bool
  catalogNames : List String
  userStreams : List StreamRec
  catalogArg : String
  ra : Option String
  dec : Option String
  radius : Option String
  radius_units : Option String
  nearOk : Bool
  nearMessage : String
  nearIds : List ℤ
  aggOk : Bool
  aggMessage : String
  aggData : List LightCurve
deriving DecidableEq

/-- Translation of `ArchiveHandler.get` (archive.py lines 539-728):
catalog-name discovery, accessible-program derivation, position validation,
then the identifier cone search followed by the aggregation keyed by the
returned identifiers with the per-program-id filter. -/
def archiveGet (env : GetEnv) : Resp × List Eff :=
  if ¬ env.gloriaUp then (.error "Gloria connection unavailable.", [])
  else
    let available := env.catalogNames.filter fun c => containsSub "ZTF_sources" c
    let selector := accessiblePrograms env.userStreams
    if env.catalogArg ∉ available then
      (.error ("Catalog " ++ env.catalogArg ++ " not available"), [.info])
    else
      match positionStepQ false env.ra env.dec env.radius env.radius_units with
      | .errorMsg m => (.error m, [.info])
      | .skip => (.noResponse, [.info])
      | .complete _ _ _ _ =>
        let effs := [Eff.info, Eff.nearQ [env.catalogArg]]
        if env.nearOk then
          if env.nearIds.length = 0 then (.success .emptyList, effs)
          else
            let effs2 := effs ++ [Eff.aggregate selector env.nearIds]
            if env.aggOk then (.success (.lightCurves env.aggData), effs2)
            else (.error env.aggMessage, effs2)
        else (.error env.nearMessage, effs)

/-- Dictionary lookup in a JSON object modelled as an association list. -/
def lookupJ (l : List (String × JVal)) (k : String) : Option JVal :=
  (l.find? fun p => decide (p.1 = k)).map (·.2)

/-- Python `data.pop(k)` without a default: a missing key raises `KeyError`. -/
def popRequired (l : List (String × JVal)) (k : String) : PyRes JVal :=
  match lookupJ l k with
  | some v => .ok v
  | none => .exc (.keyError k)

/-- Python `data.pop(k, default)`. -/
def popDefault (l : List (String × JVal)) (k : String) (d : JVal) : JVal :=
  (lookupJ l k).getD d

/-- Python `str()` of a JSON value as interpolated into error messages
(approximated; every theorem below uses it only on strings). -/
def jStrOf : JVal → String
  | .jstr s => s
  | .jnull => "None"
  | .jnum q => toString q

/-- Environment of one `ScopeFeaturesHandler.post` request, including the
annotation store the session commits into. -/
structure ScopeEnv where
  gloriaUp : Bool
  catalogNames : List String
  jsonData : List (String × JVal)
  nearOk : Bool
  nearMessage : String
  nearIds : List ℤ
  objExists : Bool
  groupsOk : Bool
  author : String
  fetchOk : Bool
  fetchMessage : String
  fetchData : List (List (String × FVal))
  db : List AnnKey
deriving DecidableEq

/-- Translation of `ScopeFeaturesHandler.post` (archive.py lines 294-535):
catalog discovery, required pops (`id`, `ra`, `dec` raise KeyError when
absent), defaulted pops (`catalog`, `radius`, `radius_units`), catalog
availability, position block, identifier cone search, source and group
checks, the feature `find` query, annotation construction and the
idempotent commit.  Returns the response, the remote calls, and the
resulting annotation store. -/
def scopeFeaturesPost (env : ScopeEnv) : Resp × List Eff × List AnnKey :=
  if ¬ env.gloriaUp then (.error "Gloria connection unavailable.", [], env.db)
  else
    let availableCatalogs := env.catalogNames.filter fun c => containsSub "ZTF_source_features" c
    match popRequired env.jsonData "id" with
    | .exc e => (.raised e, [.info], env.db)
    | .ok objIdVal =>
    match popRequired env.jsonData "ra" with
    | .exc e => (.raised e, [.info], env.db)
    | .ok raV =>
    match popRequired env.jsonData "dec" with
    | .exc e => (.raised e, [.info], env.db)
    | .ok decV =>
    let catalogV := popDefault env.jsonData "catalog" (.jstr "ZTF_source_features_DR5")
    let radiusV := popDefault env.jsonData "radius" (.jnum 2)
    let unitsV := popDefault env.jsonData "radius_units" (.jstr "arcsec")
    if ¬ jInStrings catalogV availableCatalogs then
      (.error ("Catalog " ++ jStrOf catalogV ++ " not available"), [.info], env.db)
    else
      let catalogStr := jStrOf catalogV
      match positionStepJ raV decV radiusV unitsV with
      | .raised e => (.raised e, [.info], env.db)
      | .errorMsg m => (.error m, [.info], env.db)
      | .skip => (.noResponse, [.info], env.db)
      | .complete _ _ _ _ =>
        let effs := [Eff.info, Eff.nearQ [catalogStr]]
        if ¬ env.objExists then
          (.error ("Cannot find source with id \"" ++ jStrOf objIdVal ++ "\". "), effs, env.db)
        else if ¬ env.groupsOk then
          -- source: f"Cannot find one or more groups with IDs: {group_ids}." — the
          -- interpolated group-id list lives in collaborator state not modelled here
          (.error "Cannot find one or more groups with the requested IDs.", effs, env.db)
        else if env.nearOk then
          if env.nearIds.length = 0 then (.success .emptyList, effs, env.db)
          else
            let effs2 := effs ++ [Eff.findQ catalogStr]
            if env.fetchOk then
              match env.fetchData with
              | [] => (.raised (.indexError "list index out of range"), effs2, env.db)
              | features :: _ =>
                let annotationData := buildAnnotationData features
                if annotationData.length = 0 then
                  (.error "No SCoPe features available.", effs2, env.db)
                else
                  let step := annotationInsertStep env.db
                    (AnnKey.mk objIdVal catalogStr env.author)
                  (step.2, effs2, step.1)
            else (.error env.fetchMessage, effs2, env.db)
        else (.error env.nearMessage, effs, env.db)

/-- Environment of one `ArchiveHandler.post` ingestion request. -/
structure PostEnv where
  gloriaUp : Bool
  jsonObjId : Option String
  jsonCatalog : Option String
  jsonLcIds : Option (List ℤ)
  jsonGroupIds : Option (List ℕ)
  userStreams : List StreamRec
  aggIsError : Bool
  aggMessage : String
  aggData : List LightCurve
  sourceExists : Bool
  postSourceExc : Option PyExc
  ztfInstrumentId : Option ℕ
  allStreams : List StreamRec
  addPhotExc : Option PyExc
deriving DecidableEq

/-- Resolution of the target object id (archive.py lines 866-888): when no
id is given it is synthesized from the mean RA/Dec of the returned records;
an empty coordinate list makes `np.mean` yield NaN, which
`radec_to_iau_name` rejects exactly as an out-of-range value. -/
def radecNameOfMeans (raM decM : Option ℚ) : PyRes String :=
  match raM with
  | none => .exc (.valueError "Bad RA value in degrees")
  | some ra =>
    if ¬(0 ≤ ra ∧ ra < 360) then .exc (.valueError "Bad RA value in degrees")
    else
      match decM with
      | none => .exc (.valueError "Bad Dec value in degrees")
      | some dec => radec_to_iau_name ra dec "ZTFJ"

/-- The object-id step of the ingestion pipeline: a supplied id is used as
is, otherwise the IAU-style name is synthesized from the mean position. -/
def objResolve (env : PostEnv) : PyRes String :=
  match env.jsonObjId with
  | some o => .ok o
  | none =>
    let raList := env.aggData.filterMap (·.ra)
    let decList := env.aggData.filterMap (·.dec)
    radecNameOfMeans
      (if raList.isEmpty then none else some (raList.sum / (raList.length : ℚ)))
      (if decList.isEmpty then none else some (decList.sum / (decList.length : ℚ)))

/-- Control outcome of the `try` body of `ArchiveHandler.post`: an explicit
return, a fall through its end (carrying the resolved object id), or a
raised exception. -/
inductive TryOut where
  | ret (r : Resp)
  | fell (objId : String)
  | exc (e : PyExc)
deriving DecidableEq

/-- The `try` body of `ArchiveHandler.post` after the source step
(archive.py lines 909-955): photometry normalization with flag dropping,
the ZTF-instrument check, the program-id to stream-id mapping, and the
external-photometry call when any rows remain.  Each collaborator call's
behaviour comes from the environment; the function returns the control
outcome together with the collaborator calls made after `es`.  The
source's `if streams is None` guard (line 938) is unreachable — `.all()`
on a SQLAlchemy result returns a list, never None — and is not modelled. -/
def postAfterSource (env : PostEnv) (objId : String) (es : List Eff) : TryOut × List Eff :=
  match make_photometry env.aggData true with
  | .exc e => (.exc e, es)
  | .ok rows =>
    match env.ztfInstrumentId with
    | none => (.ret (.error "ZTF instrument not found in the system"), es)
    | some _ =>
      match applyStreamIds (ztfProgramIdToStreamId env.allStreams) rows with
      | .exc e => (.exc e, es)
      | .ok _ =>
        if rows.length > 0 then
          match env.addPhotExc with
          | some e => (.exc e, es ++ [Eff.addPhot rows.length])
          | none => (.fell objId, es ++ [Eff.addPhot rows.length])
        else (.fell objId, es)

/-- Entry of the `try` body: object-id resolution followed by the source
step — when the source already exists the handler only logs, otherwise
`post_source` is called and may raise. -/
def postTryBody (env : PostEnv) : TryOut × List Eff :=
  match objResolve env with
  | .exc e => (.exc e, [])
  | .ok objId =>
    if env.sourceExists then postAfterSource env objId []
    else
      match env.postSourceExc with
      | some e => (.exc e, [Eff.postSource])
      | none => postAfterSource env objId [Eff.postSource]

/-- Translation of `ArchiveHandler.post` (archive.py lines 730-961):
parameter checks, accessible-program derivation, the aggregation query,
the temporary-token bracket `create_token … try … finally delete_token`,
and the final success response after the `finally`.  Opening the session
(`with self.Session()`) between the mint and the `try` is lazy object
construction in SQLAlchemy and is modelled as non-failing. -/
def archivePost (env : PostEnv) : Resp × List Eff :=
  if ¬ env.gloriaUp then (.error "Gloria connection unavailable.", [])
  else if env.jsonObjId = none ∧
      (env.jsonGroupIds = none ∨ (env.jsonGroupIds.getD []).length = 0) then
    (.error "Parameter group_ids is required if obj_id is not set", [])
  else
    match env.jsonCatalog with
    | none => (.error "Missing required parameter: catalog", [])
    | some _ =>
      match env.jsonLcIds with
      | none => (.error "Bad required parameter: light_curve_ids", [])
      | some ids =>
        if ids.length = 0 then (.error "Bad required parameter: light_curve_ids", [])
        else
          let selector := accessiblePrograms env.userStreams
          let effs0 := [Eff.aggregate selector ids]
          if env.aggIsError then (.error env.aggMessage, effs0)
          else if env.aggData.length = 0 then
            (.error "No data found for requested light_curve_ids", effs0)
          else
            let body := postTryBody env
            let effs := effs0 ++ [Eff.createToken] ++ body.2 ++ [Eff.deleteToken]
            match body.1 with
            | .ret r => (r, effs)
            | .exc e => (.raised e, effs)
            | .fell objId => (.success (.objId objId), effs)

/-- The pre-token exits of `ArchiveHandler.post`: this predicate holds
exactly when execution reaches the `create_token` call. -/
def reachesCreateToken (env : PostEnv) : Bool :=
  env.gloriaUp &&
  !(env.jsonObjId = none ∧
    (env.jsonGroupIds = none ∨ (env.jsonGroupIds.getD []).length = 0) : Bool) &&
  env.jsonCatalog.isSome &&
  (match env.jsonLcIds with
   | none => false
   | some ids => ids.length ≠ 0) &&
  !env.aggIsError &&
  env.aggData.length ≠ 0

/-- Recognizer for the token-revocation effect. -/
def isDeleteTok : Eff → Bool
  | .deleteToken => true
  | _ => false

/-- Recognizer for the remote search calls (cone search, find, aggregate) as
opposed to the catalog-listing info call. -/
def isSearchEff : Eff → Bool
  | .nearQ _ => true
  | .findQ _ => true
  | .aggregate _ _ => true
  | _ => false

/-- Recognizer for the downstream photometry-ingestion call. -/
def isAddPhotEff : Eff → Bool
  | .addPhot _ => true
  | _ => false

/-- Recognizer for a validation-error outcome of the position block. -/
def isPosError : PosOut → Bool
  | .errorMsg _ => true
  | _ => false

/-- Ingestion environment whose light curve carries an epoch with program id
2 while the stream table only contains "ZTF Public": the stream-id dict has
no entry for 2. -/
def envC3 : PostEnv :=
  { gloriaUp := true
    jsonObjId := some "demo-object"
    jsonCatalog := some "ZTF_sources_20240101"
    jsonLcIds := some [11]
    jsonGroupIds := some [1]
    userStreams := []
    aggIsError := false
    aggMessage := ""
    aggData := [⟨11, none, none, 1, [⟨0, 0, 0, 0, 2, 0, 0⟩]⟩]
    sourceExists := true
    postSourceExc := none
    ztfInstrumentId := some 4
    allStreams := [⟨10, "ZTF Public", []⟩]
    addPhotExc := none }

/-- Ingestion environment that reaches the token mint and succeeds. -/
def envC1 : PostEnv :=
  { gloriaUp := true
    jsonObjId := some "demo-object"
    jsonCatalog := some "ZTF_sources_20240101"
    jsonLcIds := some [11]
    jsonGroupIds := some [1]
    userStreams := []
    aggIsError := false
    aggMessage := ""
    aggData := [⟨11, none, none, 1, [⟨0, 0, 0, 0, 1, 0, 0⟩]⟩]
    sourceExists := true
    postSourceExc := none
    ztfInstrumentId := some 4
    allStreams := [⟨10, "ZTF Public", []⟩]
    addPhotExc := none }

/-- Cross-match request with an invalid radius unit (and otherwise sound
arguments) against one available catalog. -/
def envC6 : XEnv :=
  { gloriaUp := true
    catalogNames := ["AllWISE"]
    ra := some "10"
    dec := some "20"
    radius := some "5"
    radius_units := some "parsec"
    nearOk := true
    nearMessage := ""
    nearData := [] }

/-- Feature request whose JSON body lacks the required key "ra". -/
def envC7 : ScopeEnv :=
  { gloriaUp := true
    catalogNames := ["ZTF_source_features_DR5"]
    jsonData := [("id", .jstr "demo-object"), ("dec", .jnum 20),
                 ("radius", .jnum 5), ("radius_units", .jstr "arcsec")]
    nearOk := true
    nearMessage := ""
    nearIds := []
    objExists := true
    groupsOk := true
    author := "alice"
    fetchOk := true
    fetchMessage := ""
    fetchData := []
    db := [] }

/-- Archive GET request with exactly three position fields supplied, used to
witness the amended missing-field behaviour. -/
def envC7get : GetEnv :=
  { gloriaUp := true
    catalogNames := ["ZTF_sources_20240101"]
    userStreams := []
    catalogArg := "ZTF_sources_20240101"
    ra := some "10"
    dec := none
    radius := some "5"
    radius_units := some "arcsec"
    nearOk := true
    nearMessage := ""
    nearIds := []
    aggOk := true
    aggMessage := ""
    aggData := [] }

/-- Ingestion environment whose single light curve has an empty data array,
so the photometry normalizer receives no frames at all. -/
def envC9 : PostEnv :=
  { gloriaUp := true
    jsonObjId := some "demo-object"
    jsonCatalog := some "ZTF_sources_20240101"
    jsonLcIds := some [11]
    jsonGroupIds := some [1]
    userStreams := []
    aggIsError := false
    aggMessage := ""
    aggData := [⟨11, none, none, 1, []⟩]
    sourceExists := true
    postSourceExc := none
    ztfInstrumentId := some 4
    allStreams := []
    addPhotExc := none }

/-- Feature request whose position fields are all present and non-null but
with ra = 0 (a falsy JSON number): neither position branch fires. -/
def envC10scope : ScopeEnv :=
  { gloriaUp := true
    catalogNames := ["ZTF_source_features_DR5"]
    jsonData := [("id", .jstr "demo-object"), ("ra", .jnum 0), ("dec", .jnum 20)]
    nearOk := true
    nearMessage := ""
    nearIds := []
    objExists := true
    groupsOk := true
    author := "alice"
    fetchOk := true
    fetchMessage := ""
    fetchData := []
    db := [] }

/-- Archive GET request whose ra is supplied as the empty query string:
all four fields are present (none is `None`) but the tuple is not all
truthy. -/
def envC10get : GetEnv :=
  { gloriaUp := true
    catalogNames := ["ZTF_sources_20240101"]
    userStreams := []
    catalogArg := "ZTF_sources_20240101"
    ra := some ""
    dec := some "20"
    radius := some "5"
    radius_units := some "arcsec"
    nearOk := true
    nearMessage := ""
    nearIds := []
    aggOk := true
    aggMessage := ""
    aggData := [] }

theorem accessible_foldl_mem (streams : List StreamRec) (init : Finset ℤ) (p : ℤ)
    (h : p ∈ streams.foldl
      (fun acc s => if containsZtf s.name then acc ∪ s.selector.toFinset else acc) init) :
    p ∈ init ∨ ∃ s ∈ streams, containsZtf s.name = true ∧ p ∈ s.selector := by
  induction streams generalizing init with
  | nil => exact Or.inl (by simpa using h)
  | cons hd tl ih =>
    simp only [List.foldl_cons] at h
    rcases ih _ h with h1 | ⟨s, hs, hz, hp⟩
    · by_cases hc : containsZtf hd.name
      · rw [if_pos hc] at h1
        rcases Finset.mem_union.1 h1 with h2 | h2
        · exact Or.inl h2
        · exact Or.inr ⟨hd, by simp, hc, by simpa using h2⟩
      · rw [if_neg hc] at h1
        exact Or.inl h1
    · exact Or.inr ⟨s, by simp [hs], hz, hp⟩

theorem accessible_foldl_init (streams : List StreamRec) (init : Finset ℤ) (p : ℤ)
    (h : p ∈ init) :
    p ∈ streams.foldl
      (fun acc s => if containsZtf s.name then acc ∪ s.selector.toFinset else acc) init := by
  induction streams generalizing init with
  | nil => simpa using h
  | cons hd tl ih =>
    simp only [List.foldl_cons]
    apply ih
    by_cases hc : containsZtf hd.name
    · rw [if_pos hc]
      exact Finset.mem_union_left _ h
    · rwa [if_neg hc]

theorem postAfterSource_effects (env : PostEnv) (objId : String) (es : List Eff)
    (hes : ∀ e ∈ es, e = Eff.postSource ∨ ∃ n, e = Eff.addPhot n) :
    ∀ e ∈ (postAfterSource env objId es).2,
      e = Eff.postSource ∨ ∃ n, e = Eff.addPhot n := by
  intro e he
  unfold postAfterSource at he
  cases hm : make_photometry env.aggData true with
  | exc ex => simp only [hm] at he; exact hes e he
  | ok rows =>
    simp only [hm] at he
    cases hi : env.ztfInstrumentId with
    | none => simp only [hi] at he; exact hes e he
    | some i =>
      simp only [hi] at he
      cases ha : applyStreamIds (ztfProgramIdToStreamId env.allStreams) rows with
      | exc ex => simp only [ha] at he; exact hes e he
      | ok sids =>
        simp only [ha] at he
        by_cases hr : rows.length > 0
        · rw [if_pos hr] at he
          cases hp : env.addPhotExc with
          | some ex =>
            simp only [hp] at he
            rcases List.mem_append.1 he with h | h
            · exact hes e h
            · exact Or.inr ⟨rows.length, by simpa using h⟩
          | none =>
            simp only [hp] at he
            rcases List.mem_append.1 he with h | h
            · exact hes e h
            · exact Or.inr ⟨rows.length, by simpa using h⟩
        · rw [if_neg hr] at he
          exact hes e he

theorem postTryBody_effects (env : PostEnv) :
    ∀ e ∈ (postTryBody env).2, e = Eff.postSource ∨ ∃ n, e = Eff.addPhot n := by
  intro e he
  unfold postTryBody at he
  cases ho : objResolve env with
  | exc ex => simp only [ho] at he; simp at he
  | ok objId =>
    simp only [ho] at he
    by_cases hs : env.sourceExists
    · rw [if_pos hs] at he
      exact postAfterSource_effects env objId [] (by simp) e he
    · rw [if_neg hs] at he
      cases hp : env.postSourceExc with
      | some ex => simp only [hp] at he; simp at he; exact Or.inl he
      | none =>
        simp only [hp] at he
        exact postAfterSource_effects env objId [Eff.postSource] (by simp) e he

theorem aggregate_selector_get (env : GetEnv) (sel : Finset ℤ) (ids : List ℤ)
    (h : Eff.aggregate sel ids ∈ (archiveGet env).2) :
    sel = accessiblePrograms env.userStreams := by
  unfold archiveGet at h
  repeat' split at h
  all_goals simp only [apply_ite Prod.snd] at h
  all_goals try split at h
  all_goals simp_all

theorem aggregate_selector_post (env : PostEnv) (sel : Finset ℤ) (ids : List ℤ)
    (h : Eff.aggregate sel ids ∈ (archivePost env).2) :
    sel = accessiblePrograms env.userStreams := by
  unfold archivePost at h
  repeat' split at h
  all_goals try simp_all
  all_goals cases hb : (postTryBody env).1 <;> simp only [hb] at h
  all_goals
    simp only [List.append_assoc, List.mem_append, List.mem_singleton,
      List.mem_cons, List.not_mem_nil, or_false] at h
  all_goals
    rcases h with h | h | h | h
    · simp_all
    · simp_all
    · rcases postTryBody_effects env _ h with he | ⟨n, he⟩ <;> simp_all
    · simp_all

/-- C2: the derived accessible-program set always contains the public
program id 1, and contains any other id only because some caller stream
whose name contains "ztf" case-insensitively declares it in its selector;
and in both `ArchiveHandler.get` and `ArchiveHandler.post` every aggregation
query carries exactly this derived set as its program-id filter. -/
theorem claim_C2_accessible_programs :
    (∀ streams : List StreamRec,
      1 ∈ accessiblePrograms streams ∧
      (∀ p ∈ accessiblePrograms streams, p ≠ 1 →
        ∃ s ∈ streams, containsZtf s.name = true ∧ p ∈ s.selector)) ∧
    (∀ (env : GetEnv) (sel : Finset ℤ) (ids : List ℤ),
      Eff.aggregate sel ids ∈ (archiveGet env).2 →
        sel = accessiblePrograms env.userStreams) ∧
    (∀ (env : PostEnv) (sel : Finset ℤ) (ids : List ℤ),
      Eff.aggregate sel ids ∈ (archivePost env).2 →
        sel = accessiblePrograms env.userStreams) := by
  refine ⟨fun streams => ⟨?_, ?_⟩, aggregate_selector_get, aggregate_selector_post⟩
  · exact accessible_foldl_init streams {1} 1 (by simp)
  · intro p hp hp1
    rcases accessible_foldl_mem streams {1} p hp with h | h
    · exact absurd (by simpa using h) hp1
    · exact h

theorem claim_C2_witness :
    1 ∈ accessiblePrograms [StreamRec.mk 7 "ZTF partnership" [2, 3]] ∧
    ∃ s ∈ [StreamRec.mk 7 "ZTF partnership" [2, 3]],
      containsZtf s.name = true ∧ (2:ℤ) ∈ s.selector :=
  ⟨(claim_C2_accessible_programs.1 _).1,
   (claim_C2_accessible_programs.1 _).2 2 (by decide) (by decide)⟩

theorem foldl_updStream_key (p : ℤ) (nm : String) (a : ℕ)
    (hset : ∀ (m : ℤ → Option ℕ) (s : StreamRec), s.name = nm → updStream m s p = some s.id)
    (hkeep : ∀ (m : ℤ → Option ℕ) (s : StreamRec), s.name ≠ nm → updStream m s p = m p) :
    ∀ (streams : List StreamRec) (m : ℤ → Option ℕ),
      (∀ s ∈ streams, s.name = nm → s.id = a) →
      ((∃ s ∈ streams, s.name = nm) ∨ m p = some a) →
      streams.foldl updStream m p = some a := by
  intro streams
  induction streams with
  | nil =>
    intro m _ hex
    rcases hex with ⟨s, hs, _⟩ | hm
    · exact absurd hs (List.not_mem_nil s)
    · simpa using hm
  | cons hd tl ih =>
    intro m hcons hex
    simp only [List.foldl_cons]
    apply ih
    · intro s hs hn
      exact hcons s (List.mem_cons_of_mem _ hs) hn
    · by_cases hn : hd.name = nm
      · right
        rw [hset m hd hn, hcons hd (List.mem_cons_self hd tl) hn]
      · rcases hex with ⟨s, hs, hsn⟩ | hm
        · rcases List.mem_cons.1 hs with rfl | hs2
          · exact absurd hsn hn
          · exact Or.inl ⟨s, hs2, hsn⟩
        · right
          rw [hkeep m hd hn]
          exact hm

theorem foldl_updStream_nokey (p : ℤ)
    (hp0 : p ≠ 0) (hp1 : p ≠ 1) (hp2 : p ≠ 2) (hp3 : p ≠ 3) :
    ∀ (streams : List StreamRec) (m : ℤ → Option ℕ),
      m p = none → streams.foldl updStream m p = none := by
  intro streams
  induction streams with
  | nil => intro m hm; simpa using hm
  | cons hd tl ih =>
    intro m hm
    simp only [List.foldl_cons]
    apply ih
    unfold updStream updMap
    split_ifs <;> simp_all

theorem applyStreamIds_unmapped (m : ℤ → Option ℕ) (rows : List PhotRow)
    (h : ∃ r ∈ rows, m r.programid = none) :
    ∃ k, applyStreamIds m rows = .exc (.keyError k) := by
  induction rows with
  | nil => simp at h
  | cons r rs ih =>
    cases hr : m r.programid with
    | none =>
      exact ⟨toString r.programid, by simp [applyStreamIds, mapExcept, hr]⟩
    | some sid =>
      have hex : ∃ x ∈ rs, m x.programid = none := by
        rcases h with ⟨x, hx, hxm⟩
        rcases List.mem_cons.1 hx with rfl | hx2
        · rw [hr] at hxm; exact absurd hxm (by simp)
        · exact ⟨x, hx2, hxm⟩
      rcases ih hex with ⟨k, hk⟩
      refine ⟨k, ?_⟩
      unfold applyStreamIds at hk ⊢
      simp only [mapExcept, hr]
      rw [hk]

/-- C3: the program-id-to-stream-id dict is built by exact name match on the
three stream names, mapping 1 to "ZTF Public", 2 to "ZTF Public+Partnership"
and both 0 (engineering) and 3 to "ZTF Public+Partnership+Caltech", with no
other program id mapped; applying it to a normalized row with an unmapped
program id raises the dict KeyError, which (third part, on a concrete
ingestion) aborts the request as an uncaught exception without any
photometry-ingestion call, rather than silently ingesting the row. -/
theorem claim_C3_program_stream_map :
    (∀ (streams : List StreamRec) (a b c : ℕ),
      (∀ s ∈ streams,
        (s.name = "ZTF Public" → s.id = a) ∧
        (s.name = "ZTF Public+Partnership" → s.id = b) ∧
        (s.name = "ZTF Public+Partnership+Caltech" → s.id = c)) →
      (∃ s ∈ streams, s.name = "ZTF Public") →
      (∃ s ∈ streams, s.name = "ZTF Public+Partnership") →
      (∃ s ∈ streams, s.name = "ZTF Public+Partnership+Caltech") →
      ztfProgramIdToStreamId streams 1 = some a ∧
      ztfProgramIdToStreamId streams 2 = some b ∧
      ztfProgramIdToStreamId streams 0 = some c ∧
      ztfProgramIdToStreamId streams 3 = some c ∧
      (∀ p : ℤ, p ≠ 0 → p ≠ 1 → p ≠ 2 → p ≠ 3 →
        ztfProgramIdToStreamId streams p = none)) ∧
    (∀ (m : ℤ → Option ℕ) (rows : List PhotRow),
      (∃ r ∈ rows, m r.programid = none) →
      ∃ k, applyStreamIds m rows = .exc (.keyError k)) ∧
    (archivePost envC3).1 = .raised (.keyError "2") ∧
    (archivePost envC3).2.filter isAddPhotEff = [] := by
  refine ⟨?_, applyStreamIds_unmapped, ?_, ?_⟩
  · intro streams a b c hcons hpub hpart hfull
    refine ⟨?_, ?_, ?_, ?_, ?_⟩
    · refine foldl_updStream_key 1 "ZTF Public" a ?_ ?_ streams _
        (fun s hs hn => (hcons s hs).1 hn) (Or.inl hpub)
      · intro m s hn; simp [updStream, updMap, hn]
      · intro m s hn
        unfold updStream updMap
        split_ifs <;> simp_all
    · refine foldl_updStream_key 2 "ZTF Public+Partnership" b ?_ ?_ streams _
        (fun s hs hn => (hcons s hs).2.1 hn) (Or.inl hpart)
      · intro m s hn; simp [updStream, updMap, hn]
      · intro m s hn
        unfold updStream updMap
        split_ifs <;> simp_all
    · refine foldl_updStream_key 0 "ZTF Public+Partnership+Caltech" c ?_ ?_ streams _
        (fun s hs hn => (hcons s hs).2.2 hn) (Or.inl hfull)
      · intro m s hn; simp [updStream, updMap, hn]
      · intro m s hn
        unfold updStream updMap
        split_ifs <;> simp_all
    · refine foldl_updStream_key 3 "ZTF Public+Partnership+Caltech" c ?_ ?_ streams _
        (fun s hs hn => (hcons s hs).2.2 hn) (Or.inl hfull)
      · intro m s hn; simp [updStream, updMap, hn]
      · intro m s hn
        unfold updStream updMap
        split_ifs <;> simp_all
    · intro p h0 h1 h2 h3
      exact foldl_updStream_nokey p h0 h1 h2 h3 streams _ rfl
  · decide
  · decide

theorem claim_C3_witness :
    ztfProgramIdToStreamId
      [StreamRec.mk 5 "ZTF Public" [], StreamRec.mk 6 "ZTF Public+Partnership" [],
       StreamRec.mk 7 "ZTF Public+Partnership+Caltech" []] 1 = some 5 ∧
    ztfProgramIdToStreamId
      [StreamRec.mk 5 "ZTF Public" [], StreamRec.mk 6 "ZTF Public+Partnership" [],
       StreamRec.mk 7 "ZTF Public+Partnership+Caltech" []] 0 = some 7 ∧
    ∃ k, applyStreamIds (fun _ => none)
      [PhotRow.mk 0 0 0 0 "ab" "ztfg" 0 2 0 0] = .exc (.keyError k) := by
  refine ⟨?_, ?_, ?_⟩
  · exact (claim_C3_program_stream_map.1 _ 5 6 7 (by decide) (by decide) (by decide)
      (by decide)).1
  · exact (claim_C3_program_stream_map.1 _ 5 6 7 (by decide) (by decide) (by decide)
      (by decide)).2.2.1
  · exact claim_C3_program_stream_map.2.1 _ _ ⟨PhotRow.mk 0 0 0 0 "ab" "ztfg" 0 2 0 0,
      by simp, rfl⟩

theorem postTryBody_no_delete (env : PostEnv) :
    (postTryBody env).2.filter isDeleteTok = [] := by
  rw [List.filter_eq_nil_iff]
  intro e he
  rcases postTryBody_effects env e he with rfl | ⟨n, rfl⟩ <;> simp [isDeleteTok]

/-- C1: whenever an ingestion request reaches the `create_token` call, the
minted token is revoked by exactly one `delete_token` call before the
handler returns — on the success path, on every handled-error return inside
the pipeline (e.g. the missing ZTF instrument), and on every exception
raised mid-pipeline after minting, since the environment ranges over all
collaborator behaviours. -/
theorem claim_C1_token_released_once (env : PostEnv)
    (h : reachesCreateToken env = true) :
    ((archivePost env).2.filter isDeleteTok).length = 1 := by
  unfold reachesCreateToken at h
  simp only [Bool.and_eq_true, Bool.not_eq_true', decide_eq_false_iff_not,
    Option.isSome_iff_exists, decide_eq_true_eq] at h
  obtain ⟨⟨⟨⟨⟨hg, hobj⟩, cat, hcat⟩, hids⟩, hagg⟩, hlen⟩ := h
  cases hlc : env.jsonLcIds with
  | none => rw [hlc] at hids; simp at hids
  | some ids =>
    rw [hlc] at hids
    simp only [decide_eq_true_eq] at hids
    unfold archivePost
    simp only [hg, hobj, hcat, hlc, hagg, hlen]
    simp only [Bool.not_true, Bool.false_eq_true, if_false, ite_false, ite_true]
    cases hb : (postTryBody env).1 <;>
      simp [hb, hids, hlen, List.filter_append, isDeleteTok, postTryBody_no_delete]

theorem claim_C1_witness :
    reachesCreateToken envC1 = true ∧
    ((archivePost envC1).2.filter isDeleteTok).length = 1 :=
  ⟨by decide, claim_C1_token_released_once envC1 (by decide)⟩

/-- C8: inserting an annotation whose (object id, origin, author) key is not
yet stored adds exactly one row; repeating the identical insert leaves the
store unchanged — exactly one row with that key remains — and is reported
as the benign "Annotation already posted." conflict response, not a raised
exception and not anything beyond that report. -/
theorem claim_C8_annotation_idempotent (db : List AnnKey) (a : AnnKey)
    (h : a ∉ db) :
    (annotationInsertStep db a).1 = db ++ [a] ∧
    (annotationInsertStep db a).2 = Resp.success .unit ∧
    (annotationInsertStep (annotationInsertStep db a).1 a).1 = db ++ [a] ∧
    (annotationInsertStep (annotationInsertStep db a).1 a).2 =
      Resp.error "Annotation already posted." ∧
    ((annotationInsertStep (annotationInsertStep db a).1 a).1.filter
      (fun x => decide (x = a))).length = 1 := by
  have h1 : annotationInsertStep db a = (db ++ [a], Resp.success .unit) := by
    simp [annotationInsertStep, commitAnnotations, h]
  have h2 : annotationInsertStep (db ++ [a]) a =
      (db ++ [a], Resp.error "Annotation already posted.") := by
    simp [annotationInsertStep, commitAnnotations]
  have h3 : ((db ++ [a]).filter (fun x => decide (x = a))).length = 1 := by
    have hdb : db.filter (fun x => decide (x = a)) = [] := by
      rw [List.filter_eq_nil_iff]
      intro x hx
      simp only [decide_eq_true_eq]
      intro hxa
      exact h (hxa ▸ hx)
    simp [List.filter_append, hdb]
  rw [h1]
  simp only [h2]
  simp [h3]
  intro x hx hxa
  exact h (hxa ▸ hx)

theorem claim_C8_witness :
    (AnnKey.mk (.jstr "demo-object") "ZTF_source_features_DR5" "alice" ∉ ([] : List AnnKey)) ∧
    (annotationInsertStep
      (annotationInsertStep [] (AnnKey.mk (.jstr "demo-object") "ZTF_source_features_DR5" "alice")).1
      (AnnKey.mk (.jstr "demo-object") "ZTF_source_features_DR5" "alice")).2 =
      Resp.error "Annotation already posted." :=
  ⟨by decide,
   (claim_C8_annotation_idempotent []
     (AnnKey.mk (.jstr "demo-object") "ZTF_source_features_DR5" "alice")
     (by decide)).2.2.2.1⟩

/-- C9 counterexample: on an empty input sequence `make_photometry` raises
the pandas concat `ValueError` — an uncaught library exception — and in the
ingestion handler (a request whose only record has an empty data array, so
the normalizer receives no frames) this surfaces as a crash
(`Resp.raised`), not as a structured error response to the caller. -/
theorem claim_C9_counterexample :
    make_photometry [] true = .exc (.valueError "No objects to concatenate") ∧
    (archivePost envC9).1 = Resp.raised (.valueError "No objects to concatenate") := by
  constructor
  · decide
  · decide

/-- C9 amended: `make_photometry` on an empty record list (more generally,
whenever every record's data array is empty, so no frame is built) does not
succeed: it raises the pandas `ValueError("No objects to concatenate")`, an
unhandled exception rather than a structured validation error. -/
theorem claim_C9_empty_input_raises (lcs : List LightCurve)
    (h : ∀ lc ∈ lcs, lc.data = []) (drop_flagged : Bool) :
    make_photometry lcs drop_flagged = .exc (.valueError "No objects to concatenate") := by
  have ht : taggedFrames lcs = [] := by
    rw [taggedFrames, List.filterMap_eq_nil_iff]
    intro lc hlc
    simp [h lc hlc]
  simp [make_photometry, ht]

theorem claim_C9_witness :
    make_photometry [LightCurve.mk 11 none none 1 []] false =
      .exc (.valueError "No objects to concatenate") :=
  claim_C9_empty_input_raises _ (by decide) false

/-- C10: there are position inputs with all four fields present and none
equal to `None` but at least one falsy — a JSON number 0 for ra in the
feature handler, an empty query string for ra in the archive GET handler —
for which the handler takes neither the missing-field error branch nor the
complete-tuple search branch: no cone search is issued (the trace holds
only the catalog-listing call) and the handler returns no response at all. -/
theorem claim_C10_falsy_fallthrough :
    scopeFeaturesPost envC10scope = (Resp.noResponse, [Eff.info], []) ∧
    archiveGet envC10get = (Resp.noResponse, [Eff.info]) := by
  constructor
  · decide
  · decide

theorem truthyOpt_some_ne {s : String} (h : s ≠ "") : truthyOpt (some s) = true := by
  obtain ⟨l⟩ := s
  cases l with
  | nil => exact absurd (by decide) h
  | cons c cs => simp [truthyOpt]

/-- C7 counterexample: `ScopeFeaturesHandler.post` given a body that supplies
dec, radius and radius_units but not ra does not return a validation error
naming ra — `data.pop("ra")` raises an uncaught `KeyError`. -/
theorem claim_C7_counterexample :
    scopeFeaturesPost envC7 = (Resp.raised (.keyError "ra"), [Eff.info], []) ∧
    Resp.raised (.keyError "ra") ≠ Resp.error "Missing required parameter: ra" := by
  constructor
  · decide
  · decide

/-- C7 amended: in the two query-argument handlers (`CrossMatchHandler.get`
and `ArchiveHandler.get`), a request supplying exactly three of the four
position fields with non-empty values yields the error naming the single
missing field, following the fixed order ra, dec, radius, radius_units; in
`ScopeFeaturesHandler.post` a missing ra or dec instead raises an uncaught
`KeyError` (and radius / radius_units are silently defaulted, never
reported missing). -/
theorem claim_C7_missing_field :
    (∀ (cr : Bool) (b c d : String), b ≠ "" → c ≠ "" → d ≠ "" →
      positionStepQ cr none (some b) (some c) (some d) =
        .errorMsg "Missing required parameter: ra" ∧
      positionStepQ cr (some b) none (some c) (some d) =
        .errorMsg "Missing required parameter: dec" ∧
      positionStepQ cr (some b) (some c) none (some d) =
        .errorMsg "Missing required parameter: radius" ∧
      positionStepQ cr (some b) (some c) (some d) none =
        .errorMsg "Missing required parameter: radius_units") ∧
    (∀ (env : GetEnv) (m : String), env.gloriaUp = true →
      env.catalogArg ∈ env.catalogNames.filter (fun c => containsSub "ZTF_sources" c) →
      positionStepQ false env.ra env.dec env.radius env.radius_units = .errorMsg m →
      (archiveGet env).1 = .error m) ∧
    (∀ (env : XEnv) (m : String), env.gloriaUp = true →
      crossMatchCatalogs env.catalogNames ≠ [] →
      positionStepQ true env.ra env.dec env.radius env.radius_units = .errorMsg m →
      (crossMatchGet env).1 = .error m) ∧
    (∀ env : ScopeEnv, env.gloriaUp = true →
      (lookupJ env.jsonData "id").isSome = true →
      lookupJ env.jsonData "ra" = none →
      (scopeFeaturesPost env).1 = .raised (.keyError "ra")) ∧
    (∀ env : ScopeEnv, env.gloriaUp = true →
      (lookupJ env.jsonData "id").isSome = true →
      (lookupJ env.jsonData "ra").isSome = true →
      lookupJ env.jsonData "dec" = none →
      (scopeFeaturesPost env).1 = .raised (.keyError "dec")) := by
  refine ⟨?_, ?_, ?_, ?_, ?_⟩
  · intro cr b c d hb hc hd
    have hb2 := truthyOpt_some_ne hb
    have hc2 := truthyOpt_some_ne hc
    have hd2 := truthyOpt_some_ne hd
    have hd3 : d.data ≠ [] := by simpa [truthyOpt] using hd2
    refine ⟨?_, ?_, ?_, ?_⟩ <;> simp [positionStepQ, hb2, hc2, hd2, truthyOpt] <;>
      exact fun _ _ => hd3
  · intro env m hg hc hp
    unfold archiveGet
    simp [hg, hc, hp]
  · intro env m hg hc hp
    unfold crossMatchGet
    rw [if_neg (by simp [hg])]
    rw [if_neg (by simpa [List.length_eq_zero] using hc)]
    simp [hp]
  · intro env hg hid hra
    obtain ⟨v, hv⟩ := Option.isSome_iff_exists.1 hid
    unfold scopeFeaturesPost
    simp [hg, popRequired, hv, hra]
  · intro env hg hid hra hdec
    obtain ⟨v, hv⟩ := Option.isSome_iff_exists.1 hid
    obtain ⟨w, hw⟩ := Option.isSome_iff_exists.1 hra
    unfold scopeFeaturesPost
    simp [hg, popRequired, hv, hw, hdec]

theorem claim_C7_witness :
    positionStepQ false none (some "1") (some "1") (some "1") =
      .errorMsg "Missing required parameter: ra" ∧
    (archiveGet envC7get).1 = .error "Missing required parameter: dec" :=
  ⟨(claim_C7_missing_field.1 false "1" "1" "1" (by decide) (by decide) (by decide)).1,
   claim_C7_missing_field.2.1 envC7get _ (by decide) (by decide) (by decide)⟩

/-- C6 counterexample: a cross-match request failing radius-unit validation
still has a remote catalog-service call in its trace — the catalog-listing
info query is issued before the position arguments are validated — so the
claim that no remote call precedes the reported validation failure is
false. -/
theorem claim_C6_counterexample :
    crossMatchGet envC6 =
      (Resp.error
        "Invalid radius_units value. Must be one of either 'deg', 'arcmin', or 'arcsec'.",
       [Eff.info]) ∧
    (crossMatchGet envC6).2 ≠ [] := by
  constructor
  · decide
  · decide

/-- C6 amended: for every request whose position arguments fail validation
(incomplete tuple with a missing field, invalid radius unit, non-float
value, or radius over the cap), neither handler issues any remote search
call (cone search, find, or aggregation) before reporting the failure; only
the catalog-listing info query may already have been made. -/
theorem claim_C6_no_search_before_validation :
    (∀ env : XEnv,
      isPosError (positionStepQ true env.ra env.dec env.radius env.radius_units) = true →
      (crossMatchGet env).2.filter isSearchEff = []) ∧
    (∀ env : GetEnv,
      isPosError (positionStepQ false env.ra env.dec env.radius env.radius_units) = true →
      (archiveGet env).2.filter isSearchEff = []) := by
  constructor
  · intro env h
    rcases hp : positionStepQ true env.ra env.dec env.radius env.radius_units with
      m | ⟨r, d, rr, u⟩ | _
    · unfold crossMatchGet
      split_ifs <;> simp [hp, isSearchEff, apply_ite Prod.snd]
    · simp [hp, isPosError] at h
    · simp [hp, isPosError] at h
  · intro env h
    rcases hp : positionStepQ false env.ra env.dec env.radius env.radius_units with
      m | ⟨r, d, rr, u⟩ | _
    · unfold archiveGet
      split_ifs <;> simp [hp, isSearchEff, apply_ite Prod.snd]
    · simp [hp, isPosError] at h
    · simp [hp, isPosError] at h

theorem claim_C6_witness :
    isPosError (positionStepQ true envC6.ra envC6.dec envC6.radius envC6.radius_units) = true ∧
    (crossMatchGet envC6).2.filter isSearchEff = [] :=
  ⟨by decide, claim_C6_no_search_before_validation.1 envC6 (by decide)⟩

theorem mapExcept_ok {α β : Type} (g : α → PyRes β) (f : α → β) (l : List α)
    (h : ∀ a ∈ l, g a = .ok (f a)) : mapExcept g l = .ok (l.map f) := by
  induction l with
  | nil => rfl
  | cons a as ih =>
    simp only [mapExcept, h a (List.mem_cons_self a as),
      ih (fun x hx => h x (List.mem_cons_of_mem _ hx)), List.map_cons]

theorem taggedFrames_eq (lcs : List LightCurve) (h : ∀ lc ∈ lcs, lc.data ≠ []) :
    taggedFrames lcs = lcs.map fun lc => lc.data.map fun e => (e, lc.filter) := by
  induction lcs with
  | nil => rfl
  | cons hd tl ih =>
    have hhd : hd.data.length ≠ 0 := by
      simpa [List.length_eq_zero] using h hd (List.mem_cons_self hd tl)
    simp only [taggedFrames, List.filterMap_cons, hhd, if_pos, List.map_cons]
    rw [if_pos hhd]
    simp only [List.map_cons]
    exact congrArg _ (ih fun lc hlc => h lc (List.mem_cons_of_mem _ hlc))

/-- C4: on a non-empty record list with recognized filter codes and
non-empty data arrays, `make_photometry` with flag dropping returns exactly
the epochs with catflags = 0, in per-epoch order within each record and in
record-concatenation order across records, without deduplication; each
output row has mjd = hjd - 2400000.5 exactly and the filter name from the
fixed table {1 -> ztfg, 2 -> ztfr, 3 -> ztfi}. -/
theorem claim_C4_normalize (lcs : List LightCurve) (h1 : lcs ≠ [])
    (h2 : ∀ lc ∈ lcs, lc.data ≠ [] ∧ (lc.filter = 1 ∨ lc.filter = 2 ∨ lc.filter = 3)) :
    make_photometry lcs true = .ok (normalizeSpec lcs) := by
  have ht : taggedFrames lcs = lcs.map fun lc => lc.data.map fun e => (e, lc.filter) :=
    taggedFrames_eq lcs fun lc hlc => (h2 lc hlc).1
  have hlen : ¬ (taggedFrames lcs).length = 0 := by
    rw [ht]
    simpa [List.length_eq_zero] using h1
  have hok : mapExcept photRowOf (taggedFrames lcs).flatten =
      .ok ((taggedFrames lcs).flatten.map normalizeSpecRow) := by
    apply mapExcept_ok
    intro p hp
    rw [ht] at hp
    rcases List.mem_flatten.1 hp with ⟨l, hl, hpl⟩
    rcases List.mem_map.1 hl with ⟨lc, hlc, rfl⟩
    rcases List.mem_map.1 hpl with ⟨e, _, rfl⟩
    rcases (h2 lc hlc).2 with hf | hf | hf <;>
      simp [photRowOf, ztf_filters, normalizeSpecRow, hf]
  unfold make_photometry
  rw [if_neg hlen]
  simp only [hok, if_pos]
  rw [List.filter_map]
  rw [ht]
  rfl

theorem claim_C4_witness :
    make_photometry
      [LightCurve.mk 11 none none 1
        [Epoch.mk 2400001 15 1 0 1 10 20, Epoch.mk 2400002 16 1 4 1 10 20],
       LightCurve.mk 12 none none 2 [Epoch.mk 2400003 17 1 0 2 10 20]] true =
      .ok (normalizeSpec
        [LightCurve.mk 11 none none 1
          [Epoch.mk 2400001 15 1 0 1 10 20, Epoch.mk 2400002 16 1 4 1 10 20],
         LightCurve.mk 12 none none 2 [Epoch.mk 2400003 17 1 0 2 10 20]]) :=
  claim_C4_normalize _ (by decide) (by decide)

theorem isDigitCh_digitChar {d : ℕ} (h : d < 10) : isDigitCh (Nat.digitChar d) = true := by
  interval_cases d <;> decide

theorem roundHalfEven_intCast (z : ℤ) : roundHalfEven (z : ℚ) = z := by
  unfold roundHalfEven
  norm_num

theorem roundHalfEven_nonneg {q : ℚ} (h : 0 ≤ q) : 0 ≤ roundHalfEven q := by
  simp only [roundHalfEven]
  have hf : (0:ℤ) ≤ ⌊q⌋ := Int.floor_nonneg.2 h
  split_ifs <;> omega

theorem roundHalfEven_le {q : ℚ} {B : ℤ} (h : q < B) : roundHalfEven q ≤ B := by
  simp only [roundHalfEven]
  have hf : ⌊q⌋ < B := Int.floor_lt.2 (by exact_mod_cast h)
  split_ifs <;> omega

/-- C5 counterexample: at (ra, dec) = (180, 0) the synthesized name is
"ZTFJ120000.00+000000.0" — as the claim itself states — but its suffix has
six digits between the sign and the final point, so it does not match the
claimed regular expression PREFIX\d{6}\.\d{2}[+-]\d{5}\.\d{1}, which allows
only five. -/
theorem claim_C5_counterexample :
    radec_to_iau_name 180 0 "ZTFJ" =
      .ok ("ZTFJ" ++ String.mk "120000.00+000000.0".data) ∧
    iauSuffixClaimedOk "120000.00+000000.0".data = false := by
  constructor
  · unfold radec_to_iau_name
    rw [if_neg (by norm_num), if_neg (by norm_num)]
    norm_num [qsign, fmt02Of, fmt052Of, fmt041Of, pad2, roundHalfEven]
    decide
  · decide

theorem iauSuffixOk_build (n1 n2 n3 n4 n5 n6 n7 d8 : ℕ) (sg : Char)
    (h1 : n1 < 100) (h2 : n2 < 100) (h3 : n3 < 100) (h4 : n4 < 100)
    (h5 : n5 < 100) (h6 : n6 < 100) (h7 : n7 < 100) (h8 : d8 < 10)
    (hsg : sg = '+' ∨ sg = '-') :
    iauSuffixOk (pad2 n1 ++ pad2 n2 ++ (pad2 n3 ++ ['.'] ++ pad2 n4) ++
      ([sg] ++ pad2 n5 ++ pad2 n6 ++ (pad2 n7 ++ ['.'] ++ [Nat.digitChar d8]))) = true := by
  have e1 := isDigitCh_digitChar (show n1 / 10 < 10 by omega)
  have e2 := isDigitCh_digitChar (show n1 % 10 < 10 by omega)
  have e3 := isDigitCh_digitChar (show n2 / 10 < 10 by omega)
  have e4 := isDigitCh_digitChar (show n2 % 10 < 10 by omega)
  have e5 := isDigitCh_digitChar (show n3 / 10 < 10 by omega)
  have e6 := isDigitCh_digitChar (show n3 % 10 < 10 by omega)
  have e7 := isDigitCh_digitChar (show n4 / 10 < 10 by omega)
  have e8 := isDigitCh_digitChar (show n4 % 10 < 10 by omega)
  have e9 := isDigitCh_digitChar (show n5 / 10 < 10 by omega)
  have e10 := isDigitCh_digitChar (show n5 % 10 < 10 by omega)
  have e11 := isDigitCh_digitChar (show n6 / 10 < 10 by omega)
  have e12 := isDigitCh_digitChar (show n6 % 10 < 10 by omega)
  have e13 := isDigitCh_digitChar (show n7 / 10 < 10 by omega)
  have e14 := isDigitCh_digitChar (show n7 % 10 < 10 by omega)
  have e15 := isDigitCh_digitChar h8
  rcases hsg with rfl | rfl <;>
    simp [pad2, iauSuffixOk, e1, e2, e3, e4, e5, e6, e7, e8, e9, e10, e11, e12,
      e13, e14, e15]

theorem abs_sub_decd_eq_fract (dec : ℚ) :
    |dec - (⌊|dec|⌋ : ℚ) * qsign dec| = Int.fract |dec| := by
  rcases lt_trichotomy dec 0 with hneg | rfl | hpos
  · have habs : |dec| = -dec := abs_of_neg hneg
    rw [qsign, if_pos hneg, habs]
    have hr : dec - (⌊-dec⌋:ℚ) * (-1) = -((-dec) - (⌊-dec⌋:ℚ)) := by ring
    rw [hr, abs_neg, Int.self_sub_floor]
    exact abs_of_nonneg (Int.fract_nonneg _)
  · simp [qsign]
  · have habs : |dec| = dec := abs_of_pos hpos
    rw [qsign, if_neg (not_lt.2 hpos.le), if_pos hpos, habs, mul_one,
      Int.self_sub_floor]
    exact abs_of_nonneg (Int.fract_nonneg _)

theorem abs_decd_eq_floor (dec : ℚ) :
    |(⌊|dec|⌋ : ℚ) * qsign dec| = (⌊|dec|⌋ : ℚ) := by
  have hfl : (0:ℚ) ≤ (⌊|dec|⌋:ℚ) := by
    exact_mod_cast Int.floor_nonneg.2 (abs_nonneg dec)
  rcases lt_trichotomy dec 0 with hneg | rfl | hpos
  · rw [qsign, if_pos hneg, mul_neg_one, abs_neg]
    exact abs_of_nonneg hfl
  · simp [qsign]
  · rw [qsign, if_neg (not_lt.2 hpos.le), if_pos hpos, mul_one]
    exact abs_of_nonneg hfl

theorem abs_sub_floor_eq_fract (y : ℚ) : |y - (⌊y⌋ : ℚ)| = Int.fract y := by
  rw [Int.self_sub_floor]
  exact abs_of_nonneg (Int.fract_nonneg y)

theorem fmt02Of_intCast (z : ℤ) : fmt02Of (z : ℚ) = pad2 z.toNat := by
  rw [fmt02Of, roundHalfEven_intCast]

theorem radec_ok_shape (ra dec : ℚ) (pre : String)
    (h0 : 0 ≤ ra) (h1 : ra < 360) (h2 : -90 ≤ dec) (h3 : dec ≤ 90) :
    ∃ suffix : List Char,
      radec_to_iau_name ra dec pre = .ok (pre ++ String.mk suffix) ∧
      iauSuffixOk suffix = true := by
  unfold radec_to_iau_name
  rw [if_neg (not_not_intro ⟨h0, h1⟩), if_neg (not_not_intro ⟨h2, h3⟩)]
  refine ⟨_, rfl, ?_⟩
  dsimp only
  rw [Int.self_sub_floor (ra * 12 / 180)]
  rw [Int.self_sub_floor (Int.fract (ra * 12 / 180) * 60)]
  rw [abs_sub_decd_eq_fract dec, abs_decd_eq_floor dec]
  rw [abs_sub_floor_eq_fract (Int.fract |dec| * 60)]
  simp only [fmt02Of_intCast, fmt052Of, fmt041Of]
  -- arithmetic bounds
  have hx0 : 0 ≤ ra * 12 / 180 := by positivity
  have hx24 : ra * 12 / 180 < 24 := by linarith
  have hfx0 : (0:ℤ) ≤ ⌊ra * 12 / 180⌋ := Int.floor_nonneg.2 hx0
  have hfx24 : ⌊ra * 12 / 180⌋ < 24 := Int.floor_lt.2 (by exact_mod_cast hx24)
  have hfr0 : 0 ≤ Int.fract (ra * 12 / 180) := Int.fract_nonneg _
  have hfr1 : Int.fract (ra * 12 / 180) < 1 := Int.fract_lt_one _
  have hm0 : (0:ℤ) ≤ ⌊Int.fract (ra * 12 / 180) * 60⌋ := Int.floor_nonneg.2 (by positivity)
  have hm60 : ⌊Int.fract (ra * 12 / 180) * 60⌋ < 60 :=
    Int.floor_lt.2 (by push_cast; linarith)
  have hs0 : (0:ℚ) ≤ Int.fract (Int.fract (ra * 12 / 180) * 60) * 60 :=
    mul_nonneg (Int.fract_nonneg _) (by norm_num)
  have hs60 : Int.fract (Int.fract (ra * 12 / 180) * 60) * 60 < 60 := by
    have := Int.fract_lt_one (Int.fract (ra * 12 / 180) * 60)
    linarith
  have hrs0 : (0:ℤ) ≤ roundHalfEven (Int.fract (Int.fract (ra * 12 / 180) * 60) * 60 * 100) :=
    roundHalfEven_nonneg (by positivity)
  have hrs6000 :
      roundHalfEven (Int.fract (Int.fract (ra * 12 / 180) * 60) * 60 * 100) ≤ 6000 := by
    refine roundHalfEven_le ?_
    push_cast
    linarith
  have hdabs : |dec| ≤ 90 := abs_le.2 ⟨h2, h3⟩
  have hd0 : (0:ℤ) ≤ ⌊|dec|⌋ := Int.floor_nonneg.2 (abs_nonneg dec)
  have hd91 : ⌊|dec|⌋ < 91 := Int.floor_lt.2 (by push_cast; linarith)
  have hdf0 : 0 ≤ Int.fract |dec| := Int.fract_nonneg _
  have hdf1 : Int.fract |dec| < 1 := Int.fract_lt_one _
  have hdm0 : (0:ℤ) ≤ ⌊Int.fract |dec| * 60⌋ := Int.floor_nonneg.2 (by positivity)
  have hdm60 : ⌊Int.fract |dec| * 60⌋ < 60 := Int.floor_lt.2 (by push_cast; linarith)
  have hds0 : (0:ℚ) ≤ Int.fract (Int.fract |dec| * 60) * 60 :=
    mul_nonneg (Int.fract_nonneg _) (by norm_num)
  have hds60 : Int.fract (Int.fract |dec| * 60) * 60 < 60 := by
    have := Int.fract_lt_one (Int.fract |dec| * 60)
    linarith
  have hrd0 : (0:ℤ) ≤ roundHalfEven (Int.fract (Int.fract |dec| * 60) * 60 * 10) :=
    roundHalfEven_nonneg (by positivity)
  have hrd600 : roundHalfEven (Int.fract (Int.fract |dec| * 60) * 60 * 10) ≤ 600 := by
    refine roundHalfEven_le ?_
    push_cast
    linarith
  by_cases hdneg : dec < 0
  · simp only [if_pos hdneg]
    apply iauSuffixOk_build <;> first | omega | exact Or.inr rfl
  · simp only [if_neg hdneg]
    apply iauSuffixOk_build <;> first | omega | exact Or.inl rfl

/-- C5 amended: for all ra in [0, 360), dec in [-90, 90] and any name
stem, the synthesized designation is the stem followed by a suffix matching
\d{6}\.\d{2}[+-]\d{6}\.\d{1} (six digits between the sign and the final
point, not the five the specification's expression allows); the cited
example value holds exactly; out-of-range coordinates raise the RA or Dec
validation error. -/
theorem claim_C5_iau_name :
    (∀ (ra dec : ℚ) (pre : String), 0 ≤ ra → ra < 360 → -90 ≤ dec → dec ≤ 90 →
      ∃ suffix : List Char,
        radec_to_iau_name ra dec pre = .ok (pre ++ String.mk suffix) ∧
        iauSuffixOk suffix = true) ∧
    radec_to_iau_name 180 0 "ZTFJ" =
      .ok ("ZTFJ" ++ String.mk "120000.00+000000.0".data) ∧
    (∀ (ra dec : ℚ) (pre : String), ¬(0 ≤ ra ∧ ra < 360) →
      radec_to_iau_name ra dec pre = .exc (.valueError "Bad RA value in degrees")) ∧
    (∀ (ra dec : ℚ) (pre : String), (0 ≤ ra ∧ ra < 360) → ¬(-90 ≤ dec ∧ dec ≤ 90) →
      radec_to_iau_name ra dec pre = .exc (.valueError "Bad Dec value in degrees")) := by
  refine ⟨fun ra dec pre a b c d => radec_ok_shape ra dec pre a b c d,
    claim_C5_counterexample.1, ?_, ?_⟩
  · intro ra dec pre h
    unfold radec_to_iau_name
    rw [if_pos h]
  · intro ra dec pre h hd
    unfold radec_to_iau_name
    rw [if_neg (not_not_intro h), if_pos hd]

theorem claim_C5_witness :
    (∃ suffix : List Char,
      radec_to_iau_name 180 0 "ZTFJ" = .ok ("ZTFJ" ++ String.mk suffix) ∧
      iauSuffixOk suffix = true) ∧
    radec_to_iau_name 400 0 "ZTFJ" = .exc (.valueError "Bad RA value in degrees") ∧
    radec_to_iau_name 180 95 "ZTFJ" = .exc (.valueError "Bad Dec value in degrees") :=
  ⟨claim_C5_iau_name.1 180 0 "ZTFJ" (by norm_num) (by norm_num) (by norm_num)
      (by norm_num),
   claim_C5_iau_name.2.2.1 400 0 "ZTFJ" (by norm_num),
   claim_C5_iau_name.2.2.2 180 95 "ZTFJ" ⟨by norm_num, by norm_num⟩ (by norm_num)⟩
